import Mathlib

/-!
Verification development for the nauth client-side session orchestration core.

The definitions below are a shallow embedding of the TypeScript sources:
the 401-refresh-retry HTTP adapter (RefreshingFetchAdapter), its
single-flight refresh handle, the React session controller (AuthProvider
event handlers and initialization), the challenge submission logic of
ChallengePage, and the OAuth redirect completion (handleOAuthCallback and
OAuthCallbackPage). Asynchronous code is embedded by making the outcome of
each awaited external call an explicit parameter and by modelling the
interleaving-sensitive single-flight state as a labelled transition system.
-/

namespace Nauth

/-- Errors thrown on the JavaScript side. `nauthClient` embeds
`NAuthClientError` (carries the HTTP status code); `generic` embeds any
other thrown value. -/
inductive JsError where
  | nauthClient (statusCode : Nat) (message : String)
  | generic (message : String)
deriving DecidableEq, Repr

/-- The test `err instanceof NAuthClientError && err.statusCode === 401`. -/
def JsError.is401 : JsError → Bool
  | .nauthClient sc _ => sc == 401
  | .generic _ => false

/-- An HTTP request configuration; only the fields the adapter inspects.
The URL is kept as a character list so the substring test is executable. -/
structure HttpRequest where
  method : String
  url : List Char
deriving DecidableEq, Repr

/-- Boolean substring test on character lists, embedding the JavaScript
`String.prototype.includes`. -/
def hasSubstring (needle : List Char) : List Char → Bool
  | [] => needle.isEmpty
  | c :: rest => List.isPrefixOf needle (c :: rest) || hasSubstring needle rest

/-- The test `config.url.includes('/refresh')` from the adapter: a
substring (not exact-endpoint) match on the URL. -/
def urlIncludesRefresh (url : List Char) : Bool :=
  hasSubstring "/refresh".data url

namespace RefreshingFetchAdapter

/-- Resolved outcomes of the external calls one `request` invocation can
await: the first inner request, the shared `client.refreshTokens()`, and
the single retry of the inner request. `clientAttached` is
`this.client !== null` (set by `setClient`). `α` is the response payload
type of `HttpResponse`. -/
structure Env (α : Type) where
  clientAttached : Bool
  firstResult : Except JsError α
  refreshResult : Except JsError Unit
  retryResult : Except JsError α

/-- Observable trace of one `request` invocation: the value returned (or
error thrown), how many `refreshTokens` network calls this invocation
started (assuming no refresh was already in flight; sharing between
concurrent invocations is modelled separately by `SFState`), and how many
times the original request was re-issued via `inner.request`. -/
structure RequestTrace (α : Type) where
  result : Except JsError α
  refreshCalls : Nat
  retries : Nat
deriving Repr

/-- Embedding of `RefreshingFetchAdapter.request`. The first inner attempt
is returned on success. On failure, the refresh-and-retry path is taken
exactly when the error is a 401, the URL does not contain `/refresh`, and
a client is attached; otherwise the original error is rethrown. On that
path `await this.doRefresh()` is evaluated first: if the refresh resolves,
the request is re-issued once and that outcome returned as is; if the
refresh rejects, the `await` throws inside the catch block, so the retry
statement is never reached and the refresh rejection propagates. -/
def request (env : Env α) (cfg : HttpRequest) : RequestTrace α :=
  match env.firstResult with
  | .ok v => ⟨.ok v, 0, 0⟩
  | .error e =>
    if e.is401 && !urlIncludesRefresh cfg.url && env.clientAttached then
      match env.refreshResult with
      | .ok _ => ⟨env.retryResult, 1, 1⟩
      | .error re => ⟨.error re, 1, 0⟩
    else
      ⟨.error e, 0, 0⟩

end RefreshingFetchAdapter

/-- A concrete environment: first attempt fails 401, refresh succeeds,
retry succeeds with payload 7. -/
def envRetryOk : RefreshingFetchAdapter.Env Nat :=
  { clientAttached := true
    firstResult := .error (.nauthClient 401 "unauthorized")
    refreshResult := .ok ()
    retryResult := .ok 7 }

/-- A concrete environment: first attempt fails 401 and the triggered
refresh rejects. -/
def envRefreshFails : RefreshingFetchAdapter.Env Nat :=
  { clientAttached := true
    firstResult := .error (.nauthClient 401 "unauthorized")
    refreshResult := .error (.generic "refresh failed")
    retryResult := .error (.nauthClient 401 "unauthorized") }

/-- A request against an ordinary (non-refresh) endpoint. -/
def cfgProfile : HttpRequest := { method := "GET", url := "/auth/profile".data }

/-- A request whose URL contains the substring `/refresh` without being
the refresh endpoint. -/
def cfgRefreshProfile : HttpRequest :=
  { method := "GET", url := "/api/refresh-profile".data }

/-!
Single-flight refresh model. The adapter field `refreshPromise` holds the
shared in-flight refresh handle. JavaScript runs the body of `doRefresh`
without any suspension point, so check-and-set of the field is atomic; a
waiter resumes only after the `finally` callback has cleared the field.
We model N client requests that have each received a 401 as a labelled
transition system: `got401 i` is client `i` entering the refresh path
(calling `doRefresh` and awaiting the returned promise), `settle ok` is
the in-flight refresh settling with success (`ok = true`) or rejection
(`ok = false`), which clears the handle and resumes every waiter. A
resumed waiter retries its original request exactly when the refresh
resolved; on rejection the `await` throws, so the waiter records the
rejection and performs no retry.
-/

/-- State of the single-flight refresh system for `N` client requests.
`handle` is `this.refreshPromise` (promise identified by a number),
`nextId` the next fresh promise identity, `refreshCalls` the number of
`refreshTokens` network calls issued so far, `waiting i` the promise
client `i` is awaiting, `retries i` how many times client `i` re-issued
its original request, `rejected i` whether client `i` observed a refresh
rejection. -/
structure SFState (N : Nat) where
  handle : Option Nat
  nextId : Nat
  refreshCalls : Nat
  waiting : Fin N → Option Nat
  retries : Fin N → Nat
  rejected : Fin N → Bool

/-- Initial state: no refresh in flight, nobody waiting, no calls made. -/
def initSF (N : Nat) : SFState N :=
  { handle := none
    nextId := 0
    refreshCalls := 0
    waiting := fun _ => none
    retries := fun _ => 0
    rejected := fun _ => false }

/-- Events of the single-flight system. -/
inductive SFEvent (N : Nat) where
  | got401 (i : Fin N)
  | settle (ok : Bool)

/-- One transition. `got401 i`: client `i` calls `doRefresh`; if a handle
exists it is returned unchanged (no new refresh call), otherwise a fresh
promise wrapping `refreshTokens()` is stored and returned; either way the
client then awaits that handle. `settle ok`: the pending refresh settles;
its `finally` clears the field to `null` before any waiter resumes; every
waiter on that handle then either retries once (resolution) or records
the rejection without retrying (rejection). Settling when no refresh is
pending changes nothing. -/
def SFStep (s : SFState N) : SFEvent N → SFState N
  | .got401 i =>
    match s.handle with
    | some h => { s with waiting := fun j => if j = i then some h else s.waiting j }
    | none =>
      { s with
          handle := some s.nextId
          nextId := s.nextId + 1
          refreshCalls := s.refreshCalls + 1
          waiting := fun j => if j = i then some s.nextId else s.waiting j }
  | .settle ok =>
    match s.handle with
    | some h =>
      { s with
          handle := none
          retries := fun j =>
            if s.waiting j = some h then (if ok then s.retries j + 1 else s.retries j)
            else s.retries j
          rejected := fun j =>
            if s.waiting j = some h then (if ok then s.rejected j else true)
            else s.rejected j
          waiting := fun j => if s.waiting j = some h then none else s.waiting j }
    | none => s

/-- Run a list of events from a state. -/
def runSF (s : SFState N) (evs : List (SFEvent N)) : SFState N :=
  evs.foldl SFStep s

/-!
Data model shared by the session controller, the challenge page and the
OAuth completion: `AuthUser`, `AuthChallenge`, `AuthResponse` and
`ChallengeResponse`, embedded from the `@nauth-toolkit/client` types as
they are consumed by this codebase.
-/

/-- The identity snapshot handed around by the client SDK; the controller
treats it as an opaque immutable value, so two representative fields
suffice. -/
structure AuthUser where
  sub : String
  email : String
deriving DecidableEq, Repr

/-- The closed set of challenge kinds (`AuthChallenge` enum). -/
inductive AuthChallenge where
  | VERIFY_EMAIL
  | VERIFY_PHONE
  | MFA_REQUIRED
  | MFA_SETUP_REQUIRED
  | FORCE_CHANGE_PASSWORD
deriving DecidableEq, Repr

/-- Result of an auth operation: terminal when `challengeName` is absent,
pending otherwise, with the continuation token in `session` and
challenge-specific hints in `challengeParameters`. -/
structure AuthResponse where
  challengeName : Option AuthChallenge
  session : Option String
  challengeParameters : List (String × String)
deriving DecidableEq, Repr

/-- The client answer submitted to `respondToChallenge`. An `Option`
field is `none` exactly when the corresponding property is absent from
the JavaScript object literal. -/
structure ChallengeResponse where
  type : AuthChallenge
  session : String
  method : Option String
  code : Option String
deriving DecidableEq, Repr

/-!
Session controller (AuthProvider). React state is the triple
`(user, challenge, isLoading)`. Each SDK event handler is synchronous
JavaScript with no suspension point between its `set` calls, and React 18
commits the updates of one handler in a single batch, so a handler is
embedded as one state transformation; the asynchronous profile refetch
that `auth:success` starts is a separate transformation applied when it
settles.
-/

/-- Controller-owned reactive state. -/
structure CtrlState where
  user : Option AuthUser
  challenge : Option AuthResponse
  isLoading : Bool
deriving DecidableEq, Repr

/-- `isAuthenticated: !!user`. -/
def isAuthenticated (s : CtrlState) : Bool :=
  s.user.isSome

/-- Synchronous part of the `auth:success` handler: `setChallenge(null)`,
then read `client.getCurrentUser()` (the `cache` argument) and, when it
is non-null, `setUser` to it. -/
def onAuthSuccessSync (cache : Option AuthUser) (s : CtrlState) : CtrlState :=
  match cache with
  | some u => { s with challenge := none, user := some u }
  | none => { s with challenge := none }

/-- Settlement of the `client.getProfile()` refetch started by the
`auth:success` handler: on resolution `setUser(profile)`, on rejection
`setUser(client.getCurrentUser())` where `cacheAtSettle` is the cache
value read at that moment. -/
def onAuthSuccessRefetch (profileResult : Except JsError AuthUser)
    (cacheAtSettle : Option AuthUser) (s : CtrlState) : CtrlState :=
  match profileResult with
  | .ok p => { s with user := some p }
  | .error _ => { s with user := cacheAtSettle }

/-- The `auth:challenge` handler: `setChallenge(event.data ?? null)`. -/
def onChallengeEvent (payload : Option AuthResponse) (s : CtrlState) : CtrlState :=
  { s with challenge := payload }

/-- The `auth:logout` handler: `setUser(null); setChallenge(null)` in one
synchronous handler body. -/
def onLogout (s : CtrlState) : CtrlState :=
  { s with user := none, challenge := none }

/-- The `auth:session_expired` handler: identical body to `auth:logout`. -/
def onSessionExpired (s : CtrlState) : CtrlState :=
  { s with user := none, challenge := none }

/-- The initialization effect, after `client.initialize()` resolves:
`current` is `client.getCurrentUser()`; when non-null, `getProfile()`
resolves to a fresh profile (then `setUser(profile)`) or rejects (then
`setUser(current)`); when null, `setUser(null)`. Afterwards the stored
challenge is installed and `isLoading` drops to false. -/
def initializeController (current : Option AuthUser)
    (profileResult : Except JsError AuthUser)
    (storedChallenge : Option AuthResponse) (s : CtrlState) : CtrlState :=
  let s1 :=
    match current with
    | some u =>
      match profileResult with
      | .ok p => { s with user := some p }
      | .error _ => { s with user := some u }
    | none => { s with user := none }
  { s1 with challenge := storedChallenge, isLoading := false }

/-!
ChallengePage. `handleSubmit` builds the `ChallengeResponse` object
literal: `type` and `session` from the active challenge, a `method`
property spread in only when the challenge is `MFA_REQUIRED` (its value
is `getMFAMethod(challenge)`, an SDK helper), and a `code` property that
is always present with the trimmed input. The page derives
`isTotp = getMFAMethod(challenge) === 'totp'` for `MFA_REQUIRED` and
shows the resend section exactly when `sendsCode = !isTotp`.
-/

/-- Drop leading whitespace characters. -/
def dropWhitespaceLeft : List Char → List Char
  | [] => []
  | c :: rest => if c.isWhitespace then dropWhitespaceLeft rest else c :: rest

/-- Embedding of the JavaScript `String.prototype.trim`: remove
whitespace from both ends. -/
def jsTrim (s : String) : String :=
  String.mk ((dropWhitespaceLeft ((dropWhitespaceLeft s.data).reverse)).reverse)

/-- Modelled from the spec: `getMFAMethod` lives in the external
`@nauth-toolkit/client` SDK; per the spec the MFA method is derived from
the challenge `challengeParameters` hints. This concrete model reads the
`mfaMethod` hint, defaulting to `email`; the theorems that do not depend
on the derivation keep the helper abstract as a function argument. -/
def lookupMFAMethod (c : AuthResponse) : String :=
  ((c.challengeParameters.find? (fun p => p.fst == "mfaMethod")).map Prod.snd).getD "email"

/-- Embedding of the object literal built by `ChallengePage.handleSubmit`
(after its guard `if (!challenge?.session || !challenge.challengeName)
return`, which yields `none`). `getMFA` abstracts the SDK helper
`getMFAMethod`; `code` is the text in the input field. -/
def handleSubmitResponse (getMFA : AuthResponse → String)
    (challenge : AuthResponse) (code : String) : Option ChallengeResponse :=
  match challenge.session, challenge.challengeName with
  | some s, some kind =>
    some
      { type := kind
        session := s
        method := if kind = .MFA_REQUIRED then some (getMFA challenge) else none
        code := some (jsTrim code) }
  | _, _ => none

/-- The page-level derived MFA method: `getMFAMethod(challenge)` for an
`MFA_REQUIRED` challenge, `undefined` otherwise. -/
def pageMfaMethod (getMFA : AuthResponse → String) (challenge : AuthResponse) :
    Option String :=
  if challenge.challengeName = some .MFA_REQUIRED then some (getMFA challenge) else none

/-- `isTotp = mfaMethod === 'totp'`. -/
def pageIsTotp (getMFA : AuthResponse → String) (challenge : AuthResponse) : Bool :=
  pageMfaMethod getMFA challenge == some "totp"

/-- `sendsCode = !isTotp`: the resend section renders exactly when this
holds. -/
def pageSendsCode (getMFA : AuthResponse → String) (challenge : AuthResponse) : Bool :=
  !pageIsTotp getMFA challenge

/-- A pending `MFA_REQUIRED` challenge whose hints select TOTP. -/
def totpChallenge : AuthResponse :=
  { challengeName := some .MFA_REQUIRED
    session := some "s1"
    challengeParameters := [("mfaMethod", "totp")] }

/-- A pending `MFA_REQUIRED` challenge whose hints select email OTP. -/
def emailMfaChallenge : AuthResponse :=
  { challengeName := some .MFA_REQUIRED
    session := some "s2"
    challengeParameters := [("mfaMethod", "email")] }

/-!
OAuth redirect completion: `handleOAuthCallback` in the auth context and
the landing page `OAuthCallbackPage`. The outcome record collects the
return value together with the observable actions the procedure took
(which state setters it called and how many profile fetches it issued).
-/

/-- Routes the landing page can navigate to. -/
inductive Route where
  | dashboard
  | login
deriving DecidableEq, Repr

/-- The awaited externals of one `handleOAuthCallback` run: the two query
parameters of the landing URL, the resolution of
`client.exchangeSocialRedirect(token)`, and the resolution of
`client.getProfile()`. -/
structure OAuthEnv where
  errorParam : Option String
  exchangeToken : Option String
  exchangeResult : String → Except JsError AuthResponse
  profileResult : Except JsError AuthUser

/-- Observable outcome of `handleOAuthCallback`: the returned
`(user, needsChallenge)` record plus the actions taken —
`challengeSet r` means `setChallenge(r)` was called, `userSet u` means
`setUser(u)` was called, `profileFetches` counts `getProfile()` calls. -/
structure OAuthOutcome where
  retUser : Option AuthUser
  needsChallenge : Bool
  challengeSet : Option AuthResponse
  userSet : Option AuthUser
  profileFetches : Nat
deriving DecidableEq, Repr

/-- Embedding of `handleOAuthCallback`: an `error` query parameter aborts
with `(null, false)` and no state mutation; with an exchange token, the
token is exchanged and a pending challenge in the result is stored via
`setChallenge` and returned as `(null, true)` with no profile fetch;
otherwise (no challenge, or cookie mode without a token) the profile is
fetched, stored via `setUser`, and returned. A rejection of an awaited
call propagates. -/
def handleOAuthCallback (env : OAuthEnv) : Except JsError OAuthOutcome :=
  match env.errorParam with
  | some _ => .ok ⟨none, false, none, none, 0⟩
  | none =>
    match env.exchangeToken with
    | some tok =>
      match env.exchangeResult tok with
      | .error e => .error e
      | .ok resp =>
        match resp.challengeName with
        | some _ => .ok ⟨none, true, some resp, none, 0⟩
        | none =>
          match env.profileResult with
          | .error e => .error e
          | .ok p => .ok ⟨some p, false, none, some p, 1⟩
    | none =>
      match env.profileResult with
      | .error e => .error e
      | .ok p => .ok ⟨some p, false, none, some p, 1⟩

/-- The `then` callback of `OAuthCallbackPage` is
`(user) => user ? navigate(dashboard) : navigate(login)`, but the
parameter named `user` binds the entire resolved value — the whole
`(user, needsChallenge)` record returned by `handleOAuthCallback` — and
in JavaScript every object is truthy. This function is that truthiness
test on the record. -/
def jsRecordTruthy (_ : OAuthOutcome) : Bool :=
  true

/-- Navigation performed by `OAuthCallbackPage` when the callback promise
resolves with outcome `r`. -/
def oauthPageNavigate (r : OAuthOutcome) : Route :=
  if jsRecordTruthy r then .dashboard else .login

/-- Embedding of `ProtectedRoute`: with loading finished it renders the
guarded children only when authenticated, otherwise it redirects to the
login route. -/
def protectedRouteRedirects (isAuth : Bool) : Bool :=
  !isAuth

/-- The social-login MFA landing: no error parameter, an exchange token
whose exchange resolves to a pending `MFA_REQUIRED` challenge. -/
def mfaSocialEnv : OAuthEnv :=
  { errorParam := none
    exchangeToken := some "tok"
    exchangeResult := fun _ => .ok emailMfaChallenge
    profileResult := .error (.generic "unreachable") }

/-- A concrete user for witnesses. -/
def alice : AuthUser := { sub := "user-1", email := "alice@example.com" }

/-- A second concrete user for witnesses. -/
def bob : AuthUser := { sub := "user-2", email := "bob@example.com" }

/-- A controller state holding a pending challenge and no user. -/
def ctrlWithChallenge : CtrlState :=
  { user := none, challenge := some emailMfaChallenge, isLoading := false }

/-- The single-flight state after the first client of two hits its 401. -/
def sfAfterFirst401 : SFState 2 :=
  SFStep (initSF 2) (SFEvent.got401 0)

/-- The full run of a concurrent-401 scenario: every request in `l` hits
its 401 while the refresh created by the first of them is still pending,
then that refresh settles with outcome `ok`. -/
def concurrentRun (N : Nat) (l : List (Fin N)) (ok : Bool) : SFState N :=
  runSF (initSF N) (l.map SFEvent.got401 ++ [SFEvent.settle ok])

/-!
Theorems. Helper lemmas about `runSF` come first; the claim theorems
follow, one per claim.
-/

theorem runSF_nil (s : SFState N) : runSF s [] = s := rfl

theorem runSF_cons (s : SFState N) (e : SFEvent N) (evs : List (SFEvent N)) :
    runSF s (e :: evs) = runSF (SFStep s e) evs := rfl

theorem runSF_append (s : SFState N) (a b : List (SFEvent N)) :
    runSF s (a ++ b) = runSF (runSF s a) b := by
  simp [runSF, List.foldl_append]

/-- While a refresh handle is in flight, further 401 arrivals leave the
handle, the call count, the retry counts and the rejection flags
untouched; they only add the arriving clients to the waiters of that same
handle. -/
theorem runSF_got401_preserves (l : List (Fin N)) :
    ∀ (s : SFState N) (h : Nat), s.handle = some h →
      (runSF s (l.map SFEvent.got401)).handle = some h ∧
      (runSF s (l.map SFEvent.got401)).nextId = s.nextId ∧
      (runSF s (l.map SFEvent.got401)).refreshCalls = s.refreshCalls ∧
      (∀ j, (runSF s (l.map SFEvent.got401)).retries j = s.retries j) ∧
      (∀ j, (runSF s (l.map SFEvent.got401)).rejected j = s.rejected j) ∧
      (∀ j, (runSF s (l.map SFEvent.got401)).waiting j =
        if j ∈ l then some h else s.waiting j) := by
  induction l with
  | nil =>
    intro s h hs
    simp [runSF, hs]
  | cons i t ih =>
    intro s h hs
    have hstep : SFStep s (SFEvent.got401 i) =
        { s with waiting := fun j => if j = i then some h else s.waiting j } := by
      simp [SFStep, hs]
    rw [List.map_cons, runSF_cons, hstep]
    obtain ⟨H1, H2, H3, H4, H5, H6⟩ :=
      ih { s with waiting := fun j => if j = i then some h else s.waiting j } h hs
    refine ⟨H1, H2, H3, H4, H5, fun j => ?_⟩
    rw [H6 j]
    by_cases hjt : j ∈ t
    · simp [hjt]
    · by_cases hji : j = i <;> simp [hjt, hji, List.mem_cons]

/-- Full evaluation of a nonempty concurrent-401 scenario: one refresh
network call is made; after settlement the handle is cleared; each
participating client retried exactly once when the refresh resolved and
zero times when it rejected, recording the rejection in that case;
clients outside the scenario are untouched. -/
theorem concurrentRun_eval (i0 : Fin N) (t : List (Fin N)) (ok : Bool) :
    (concurrentRun N (i0 :: t) ok).refreshCalls = 1 ∧
    (concurrentRun N (i0 :: t) ok).handle = none ∧
    (∀ j, (concurrentRun N (i0 :: t) ok).retries j =
      if j ∈ i0 :: t then (if ok then 1 else 0) else 0) ∧
    (∀ j, (concurrentRun N (i0 :: t) ok).rejected j =
      if j ∈ i0 :: t then !ok else false) := by
  have hstep1 : SFStep (initSF N) (SFEvent.got401 i0) =
      { handle := some 0, nextId := 1, refreshCalls := 1
        waiting := fun j => if j = i0 then some 0 else none
        retries := fun _ => 0, rejected := fun _ => false } := by
    simp [SFStep, initSF]
  obtain ⟨H1, H2, H3, H4, H5, H6⟩ :=
    runSF_got401_preserves t
      { handle := some 0, nextId := 1, refreshCalls := 1
        waiting := fun j => if j = i0 then some 0 else none
        retries := fun _ => 0, rejected := fun _ => false } 0 rfl
  have hrun : concurrentRun N (i0 :: t) ok =
      SFStep (runSF
        { handle := some 0, nextId := 1, refreshCalls := 1
          waiting := fun j => if j = i0 then some 0 else none
          retries := fun _ => 0, rejected := fun _ => false }
        (t.map SFEvent.got401)) (SFEvent.settle ok) := by
    rw [concurrentRun, List.map_cons, List.cons_append, runSF_cons, hstep1,
      runSF_append, runSF_cons, runSF_nil]
  rw [hrun]
  have hwait : ∀ j,
      (runSF
        { handle := some 0, nextId := 1, refreshCalls := 1
          waiting := fun j => if j = i0 then some 0 else none
          retries := fun _ => 0, rejected := fun _ => false }
        (t.map SFEvent.got401)).waiting j = some 0 ↔ (j ∈ i0 :: t) := by
    intro j
    rw [H6 j]
    by_cases hjt : j ∈ t
    · simp [hjt]
    · by_cases hji : j = i0 <;> simp [hjt, hji, List.mem_cons]
  simp only [SFStep, H1]
  refine ⟨H3, trivial, fun j => ?_, fun j => ?_⟩
  · have hr := H4 j
    by_cases hj : j ∈ i0 :: t
    · rw [if_pos ((hwait j).mpr hj), if_pos hj, hr]
    · rw [if_neg (fun hw => hj ((hwait j).mp hw)), if_neg hj, hr]
  · have hr := H5 j
    by_cases hj : j ∈ i0 :: t
    · rw [if_pos ((hwait j).mpr hj), if_pos hj, hr]
      cases ok <;> rfl
    · rw [if_neg (fun hw => hj ((hwait j).mp hw)), if_neg hj, hr]

/-- C2 (amended): `request(cfg)` follows the refresh algorithm with the
endpoint exclusion read as the code's substring test. An inner success is
returned unchanged; a non-401 failure, a 401 whose URL contains the
substring `/refresh` (which covers the refresh endpoint itself but also
any other URL containing that substring), or a 401 with no session client
attached, propagates unchanged with no refresh and no retry; every other
401 — one whose URL does not contain `/refresh`, with a client attached —
with a successful shared refresh re-issues the original request exactly
once and returns that retry's outcome — success or failure alike — with
exactly one refresh call. -/
theorem request_follows_refresh_algorithm (α : Type)
    (env : RefreshingFetchAdapter.Env α) (cfg : HttpRequest) :
    (∀ v, env.firstResult = .ok v →
      RefreshingFetchAdapter.request env cfg = ⟨.ok v, 0, 0⟩) ∧
    (∀ e, env.firstResult = .error e → e.is401 = false →
      RefreshingFetchAdapter.request env cfg = ⟨.error e, 0, 0⟩) ∧
    (∀ e, env.firstResult = .error e → urlIncludesRefresh cfg.url = true →
      RefreshingFetchAdapter.request env cfg = ⟨.error e, 0, 0⟩) ∧
    (∀ e, env.firstResult = .error e → env.clientAttached = false →
      RefreshingFetchAdapter.request env cfg = ⟨.error e, 0, 0⟩) ∧
    (∀ e, env.firstResult = .error e → e.is401 = true →
      urlIncludesRefresh cfg.url = false → env.clientAttached = true →
      env.refreshResult = .ok () →
      RefreshingFetchAdapter.request env cfg = ⟨env.retryResult, 1, 1⟩) := by
  refine ⟨?_, ?_, ?_, ?_, ?_⟩ <;> intros <;>
    simp [RefreshingFetchAdapter.request, *]

/-- Witness for C2: a 401 on the profile endpoint with a successful
refresh returns the retry outcome, after one refresh call and one
retry. -/
theorem request_follows_refresh_algorithm_witness :
    RefreshingFetchAdapter.request envRetryOk cfgProfile = ⟨.ok 7, 1, 1⟩ :=
  (request_follows_refresh_algorithm Nat envRetryOk cfgProfile).2.2.2.2
    (.nauthClient 401 "unauthorized") rfl rfl rfl rfl rfl

/-- Counterexample to C2 as frozen: the claim quantifies over every 401
that is not against the refresh endpoint (client attached) and asserts it
is refreshed and retried once. The request to `/api/refresh-profile` is
not against the refresh endpoint, fails with a 401, has the client
attached, and its refresh would have succeeded — yet the coordinator
issues no refresh call and no retry and propagates the 401 unchanged,
because the exclusion is the substring test
`config.url.includes('/refresh')`, which this URL matches. -/
theorem non_refresh_endpoint_401_skipped_cex :
    urlIncludesRefresh cfgRefreshProfile.url = true ∧
    envRetryOk.clientAttached = true ∧
    envRetryOk.refreshResult = .ok () ∧
    RefreshingFetchAdapter.request envRetryOk cfgRefreshProfile =
      ⟨.error (.nauthClient 401 "unauthorized"), 0, 0⟩ :=
  ⟨by decide, rfl, rfl, rfl⟩

/-- C10: any URL containing the substring `/refresh` anywhere — not only
the refresh endpoint — is excluded from the refresh path: its 401
propagates unchanged, with no refresh call and no retry. -/
theorem url_substring_refresh_excluded (α : Type)
    (env : RefreshingFetchAdapter.Env α) (cfg : HttpRequest) (e : JsError)
    (h1 : urlIncludesRefresh cfg.url = true)
    (h2 : env.firstResult = .error e) (h3 : e.is401 = true) :
    RefreshingFetchAdapter.request env cfg = ⟨.error e, 0, 0⟩ := by
  simp [RefreshingFetchAdapter.request, h1, h2]

/-- Witness for C10: the URL `/api/refresh-profile` contains `/refresh`
in the middle of a longer segment, and its 401 propagates with no refresh
attempt even though the client is attached and a refresh would have
succeeded. -/
theorem url_substring_refresh_excluded_witness :
    urlIncludesRefresh cfgRefreshProfile.url = true ∧
    RefreshingFetchAdapter.request envRetryOk cfgRefreshProfile =
      ⟨.error (.nauthClient 401 "unauthorized"), 0, 0⟩ :=
  ⟨by decide,
    url_substring_refresh_excluded Nat envRetryOk cfgRefreshProfile
      (.nauthClient 401 "unauthorized") (by decide) rfl rfl⟩

/-- Counterexample to C1: with a 401 on an ordinary endpoint and a
rejecting `refreshTokens()`, the coordinator performs zero retries of the
original request and surfaces the refresh rejection, not the retry's own
error — the claim asserts the retry still happens exactly once. -/
theorem refresh_rejection_skips_retry_cex :
    (RefreshingFetchAdapter.request envRefreshFails cfgProfile).retries = 0 ∧
    (RefreshingFetchAdapter.request envRefreshFails cfgProfile).result =
      .error (.generic "refresh failed") :=
  ⟨rfl, rfl⟩

/-- C1 (amended): if the triggered `refreshTokens()` rejects, the
rejection propagates to the caller (and, in the concurrent model, to
every waiter, which records it) and the coordinator performs no retry of
the original request — the `await` on the shared refresh throws before
the retry statement is reached. -/
theorem refresh_rejection_no_retry :
    (∀ (α : Type) (env : RefreshingFetchAdapter.Env α) (cfg : HttpRequest)
      (e re : JsError),
      env.firstResult = .error e → e.is401 = true →
      urlIncludesRefresh cfg.url = false → env.clientAttached = true →
      env.refreshResult = .error re →
      RefreshingFetchAdapter.request env cfg = ⟨.error re, 1, 0⟩) ∧
    (∀ (N : Nat) (l : List (Fin N)) (i : Fin N), i ∈ l →
      (concurrentRun N l false).rejected i = true ∧
      (concurrentRun N l false).retries i = 0 ∧
      (concurrentRun N l false).refreshCalls = 1) := by
  constructor
  · intro α env cfg e re h1 h2 h3 h4 h5
    simp [RefreshingFetchAdapter.request, h1, h2, h3, h4, h5]
  · intro N l i hi
    obtain ⟨i0, t, rfl⟩ := List.exists_cons_of_ne_nil (List.ne_nil_of_mem hi)
    obtain ⟨R, _, Rt, Rj⟩ := concurrentRun_eval i0 t false
    exact ⟨by rw [Rj i]; simp [hi], by rw [Rt i]; simp [hi], R⟩

/-- Witness for C1 (amended): the concrete rejecting environment, and a
two-client concurrent scenario whose refresh rejects. -/
theorem refresh_rejection_no_retry_witness :
    RefreshingFetchAdapter.request envRefreshFails cfgProfile =
      ⟨.error (.generic "refresh failed"), 1, 0⟩ ∧
    (concurrentRun 2 [0, 1] false).rejected 0 = true ∧
    (concurrentRun 2 [0, 1] false).retries 0 = 0 ∧
    (concurrentRun 2 [0, 1] false).refreshCalls = 1 :=
  ⟨refresh_rejection_no_retry.1 Nat envRefreshFails cfgProfile
      (.nauthClient 401 "unauthorized") (.generic "refresh failed")
      rfl rfl rfl rfl rfl,
    refresh_rejection_no_retry.2 2 [0, 1] 0 (by decide)⟩

/-- C3: for every nonempty set of concurrent requests that each hit a 401
while the first one's refresh is still in flight, exactly one
`refreshTokens()` network call is issued, and each participating request
is retried exactly once after the shared refresh resolves; requests
outside the scenario are not retried. -/
theorem single_flight_concurrent_401s (N : Nat) (l : List (Fin N))
    (hne : l ≠ []) (hnd : l.Nodup) :
    (concurrentRun N l true).refreshCalls = 1 ∧
    (∀ i, i ∈ l → (concurrentRun N l true).retries i = 1) ∧
    (∀ i, i ∉ l → (concurrentRun N l true).retries i = 0) := by
  obtain ⟨i0, t, rfl⟩ := List.exists_cons_of_ne_nil hne
  obtain ⟨R, _, Rt, _⟩ := concurrentRun_eval i0 t true
  exact ⟨R, fun i hi => by rw [Rt i]; simp [hi],
    fun i hi => by rw [Rt i]; simp [hi]⟩

/-- Witness for C3: two concurrent 401s produce one refresh call and one
retry each. -/
theorem single_flight_concurrent_401s_witness :
    ([0, 1] : List (Fin 2)) ≠ [] ∧ ([0, 1] : List (Fin 2)).Nodup ∧
    (concurrentRun 2 [0, 1] true).refreshCalls = 1 ∧
    (concurrentRun 2 [0, 1] true).retries 0 = 1 ∧
    (concurrentRun 2 [0, 1] true).retries 1 = 1 := by
  obtain ⟨a, b, _⟩ := single_flight_concurrent_401s 2 [0, 1] (by decide) (by decide)
  exact ⟨by decide, by decide, a, b 0 (by decide), b 1 (by decide)⟩

/-- C9: the in-flight refresh handle invariant. A 401 arriving with no
handle creates one (one new refresh call) and the caller awaits it; a 401
arriving while a handle exists observes that same handle with no new
refresh call; settlement clears the handle whether the refresh succeeded
or failed; settling with no handle pending changes nothing, so the clear
happens exactly once per refresh. At most one handle exists at any time
by construction (the state carries a single optional handle). -/
theorem refresh_in_flight_invariant (N : Nat) (s : SFState N) (i : Fin N)
    (h : Nat) (ok : Bool) :
    (s.handle = none →
      (SFStep s (.got401 i)).handle = some s.nextId ∧
      (SFStep s (.got401 i)).refreshCalls = s.refreshCalls + 1 ∧
      (SFStep s (.got401 i)).waiting i = some s.nextId) ∧
    (s.handle = some h →
      (SFStep s (.got401 i)).handle = some h ∧
      (SFStep s (.got401 i)).refreshCalls = s.refreshCalls ∧
      (SFStep s (.got401 i)).waiting i = some h) ∧
    (s.handle = some h → (SFStep s (.settle ok)).handle = none) ∧
    (s.handle = none → SFStep s (.settle ok) = s) := by
  refine ⟨?_, ?_, ?_, ?_⟩ <;> intro hs <;> simp [SFStep, hs]

/-- Witness for C9: from the empty two-client state, the first 401
creates handle 0 with one refresh call; a second 401 observes the same
handle with no new call; settlement (here: failure) clears it; settling
the already-cleared state is a no-op. -/
theorem refresh_in_flight_invariant_witness :
    ((SFStep (initSF 2) (.got401 0)).handle = some 0 ∧
      (SFStep (initSF 2) (.got401 0)).refreshCalls = 1 ∧
      (SFStep (initSF 2) (.got401 0)).waiting 0 = some 0) ∧
    ((SFStep sfAfterFirst401 (.got401 1)).handle = some 0 ∧
      (SFStep sfAfterFirst401 (.got401 1)).refreshCalls = 1 ∧
      (SFStep sfAfterFirst401 (.got401 1)).waiting 1 = some 0) ∧
    (SFStep sfAfterFirst401 (.settle false)).handle = none ∧
    SFStep (initSF 2) (.settle true) = initSF 2 :=
  ⟨(refresh_in_flight_invariant 2 (initSF 2) 0 0 true).1 rfl,
    (refresh_in_flight_invariant 2 sfAfterFirst401 1 0 true).2.1 rfl,
    (refresh_in_flight_invariant 2 sfAfterFirst401 1 0 false).2.2.1 rfl,
    (refresh_in_flight_invariant 2 (initSF 2) 0 0 true).2.2.2 rfl⟩

/-- C4 (code bug evaluation): on an OAuth landing with an exchange token
whose exchange resolves to a pending challenge, `handleOAuthCallback`
does store the challenge, performs no profile fetch and returns
`(null, needsChallenge: true)` — but `OAuthCallbackPage` then navigates
to the dashboard, because its `then` callback binds the whole result
record to the name `user` and every JavaScript object is truthy; the
protected dashboard route then bounces the unauthenticated visitor to the
login page instead of the challenge flow. -/
theorem oauth_challenge_routed_to_dashboard :
    handleOAuthCallback mfaSocialEnv =
      .ok ⟨none, true, some emailMfaChallenge, none, 0⟩ ∧
    oauthPageNavigate ⟨none, true, some emailMfaChallenge, none, 0⟩ =
      .dashboard ∧
    protectedRouteRedirects
      (isAuthenticated ⟨none, some emailMfaChallenge, false⟩) = true :=
  ⟨rfl, rfl, rfl⟩

/-- Counterexample to C5: for an `MFA_REQUIRED` challenge whose derived
method is TOTP, the submitted response still carries a `code` property
(the trimmed input) — the claim asserts the `code` field is omitted when
the method is TOTP. -/
theorem mfa_totp_code_included_cex :
    handleSubmitResponse lookupMFAMethod totpChallenge "123456" =
      some ⟨.MFA_REQUIRED, "s1", some "totp", some "123456"⟩ ∧
    pageIsTotp lookupMFAMethod totpChallenge = true :=
  ⟨rfl, rfl⟩

/-- C5 (amended): for every `MFA_REQUIRED` challenge the submitted
response contains a `method` field (the SDK-derived method) and always
contains a `code` field holding the trimmed input, whatever the method —
TOTP included; what is restricted to non-TOTP methods is only the resend
option of the page. -/
theorem mfa_response_always_includes_code (getMFA : AuthResponse → String)
    (c : AuthResponse) (s code : String)
    (h1 : c.challengeName = some .MFA_REQUIRED) (h2 : c.session = some s) :
    handleSubmitResponse getMFA c code =
      some ⟨.MFA_REQUIRED, s, some (getMFA c), some (jsTrim code)⟩ ∧
    pageSendsCode getMFA c = !(getMFA c == "totp") := by
  constructor
  · simp [handleSubmitResponse, h1, h2]
  · simp [pageSendsCode, pageIsTotp, pageMfaMethod, h1]

/-- Witness for C5 (amended): an email-method MFA challenge yields a
response with both `method` and `code`, and the resend section shows. -/
theorem mfa_response_always_includes_code_witness :
    emailMfaChallenge.challengeName = some .MFA_REQUIRED ∧
    emailMfaChallenge.session = some "s2" ∧
    handleSubmitResponse lookupMFAMethod emailMfaChallenge " 654321 " =
      some ⟨.MFA_REQUIRED, "s2", some "email", some "654321"⟩ ∧
    pageSendsCode lookupMFAMethod emailMfaChallenge = true :=
  ⟨rfl, rfl,
    (mfa_response_always_includes_code lookupMFAMethod emailMfaChallenge
      "s2" " 654321 " rfl rfl).1,
    (mfa_response_always_includes_code lookupMFAMethod emailMfaChallenge
      "s2" " 654321 " rfl rfl).2⟩

/-- C6: the `auth:success` handler clears the challenge and synchronously
installs the user from the client cache; since the cache is non-null at
that point (the SDK updates it before emitting the event), the user state
is non-null and `isAuthenticated` is true immediately, before the
asynchronous profile refetch replaces the user again. -/
theorem auth_success_sync_user_nonnull (s : CtrlState)
    (cache : Option AuthUser) (u : AuthUser) (hc : cache = some u)
    (p : AuthUser) :
    (onAuthSuccessSync cache s).challenge = none ∧
    (onAuthSuccessSync cache s).user = some u ∧
    isAuthenticated (onAuthSuccessSync cache s) = true ∧
    (onAuthSuccessRefetch (.ok p) cache (onAuthSuccessSync cache s)).user =
      some p := by
  subst hc
  simp [onAuthSuccessSync, onAuthSuccessRefetch, isAuthenticated]

/-- Witness for C6: from a state holding a pending challenge and no user,
the handler with cached user `alice` yields a cleared challenge and user
`alice`; the later refetch replaces the user with the fresh profile. -/
theorem auth_success_sync_user_nonnull_witness :
    (onAuthSuccessSync (some alice) ctrlWithChallenge).challenge = none ∧
    (onAuthSuccessSync (some alice) ctrlWithChallenge).user = some alice ∧
    isAuthenticated (onAuthSuccessSync (some alice) ctrlWithChallenge) = true ∧
    (onAuthSuccessRefetch (.ok bob) (some alice)
      (onAuthSuccessSync (some alice) ctrlWithChallenge)).user = some bob :=
  auth_success_sync_user_nonnull ctrlWithChallenge (some alice) alice rfl bob

/-- C7: the `auth:logout` and `auth:session_expired` handlers clear both
`user` and `challenge` in one state transformation. Each handler body is
synchronous with no suspension point between its two set calls and React
commits them in a single batch, so the handler is a single observable
update: no observer sees one field cleared and the other not. The two
handlers produce identical states. -/
theorem logout_expiry_clear_both_atomic (s : CtrlState) :
    (onLogout s).user = none ∧ (onLogout s).challenge = none ∧
    (onSessionExpired s).user = none ∧ (onSessionExpired s).challenge = none ∧
    onSessionExpired s = onLogout s := by
  simp [onLogout, onSessionExpired]

/-- C8: a failed background profile fetch while a cached user exists
never clears the user. During initialization, on `getProfile()` rejection
the state falls back to the cached user; during the refetch after
`auth:success`, on rejection the state falls back to the client cache —
non-null under the claim's premise that a cached user exists — so the
user is never set to null and `isAuthenticated` stays true. -/
theorem profile_fetch_failure_keeps_user (s : CtrlState) (u : AuthUser)
    (storedCh : Option AuthResponse) (e : JsError) :
    (initializeController (some u) (.error e) storedCh s).user = some u ∧
    isAuthenticated (initializeController (some u) (.error e) storedCh s) =
      true ∧
    (onAuthSuccessRefetch (.error e) (some u) s).user = some u ∧
    isAuthenticated (onAuthSuccessRefetch (.error e) (some u) s) = true := by
  simp [initializeController, onAuthSuccessRefetch, isAuthenticated]

end Nauth
